import Mathlib

/-!
Shallow embedding of `src/dog_mcp_server.py` (the DogMCP request adapter).

Each MCP tool is modelled as a total Lean function from its inputs and the
outcome(s) of its upstream HTTP call(s) to the JSON document it serializes
(`json.dumps` argument) together with the list of upstream requests it
issued, in order.  Totality of these functions models the fact that every
branch of the Python code returns a value and no exception escapes the
operation boundary (every `client.get` outcome — 200 response, non-200
response, `httpx.TimeoutException`, any other exception — is a constructor
of `HttpResult` and is mapped by the corresponding `try/except` branch).

JSON bodies of upstream responses are modelled at the shape the code reads
them with (`response.json()` results): lists of typed items whose optional
fields are `Option`-valued, mirroring Python's `dict.get`.  The chained
lookup `d.get("weight", {}).get("metric", "Unknown")` is modelled as an
`Option String` field holding `none` exactly when the chain falls through
to the `"Unknown"` default.  `datetime.now().isoformat()` is modelled by a
`now : String` parameter.
-/

namespace DogMcp

/-- JSON values, the shape handed to `json.dumps`. -/
inductive Json where
  | null
  | str (s : String)
  | num (n : Int)
  | bool (b : Bool)
  | arr (xs : List Json)
  | obj (fields : List (String × Json))

/-- Field lookup in a JSON object (first match, as a Python dict key). -/
def Json.getField (j : Json) (k : String) : Option Json :=
  match j with
  | .obj fields => fields.lookup k
  | _ => none

/-- Value of a query parameter (Python passes ints and strings). -/
inductive PVal where
  | s (v : String)
  | i (v : Int)
deriving DecidableEq

/-- An outbound HTTP GET request as the adapter builds it. -/
structure Request where
  path : String
  params : List (String × PVal)
  headers : List (String × String)
deriving DecidableEq

/-- Outcome of one `client.get` call: a response (any status code, with the
parsed body and raw text), a `httpx.TimeoutException` (its `str`), or any
other exception (its `str`). -/
inductive HttpResult (α : Type) where
  | response (status : Nat) (body : α) (text : String)
  | timeout (msg : String)
  | failure (msg : String)

/-- One item of an `/images/search` response body, at the fields the code
reads (`img.get(...)`, `"breeds" in img and img["breeds"]`). -/
structure BreedItem where
  name : Option String
  temperament : Option String
  life_span : Option String
  bred_for : Option String
  weight_metric : Option String
  height_metric : Option String
deriving DecidableEq

structure ImageItem where
  id : Option String
  url : Option String
  width : Option Int
  height : Option Int
  breeds : Option (List BreedItem)
deriving DecidableEq

/-- One item of a `/breeds` response body, at the fields the code reads. -/
structure UpstreamBreed where
  id : Option Int
  name : Option String
  temperament : Option String
  life_span : Option String
  alt_names : Option String
  wikipedia_url : Option String
  origin : Option String
  weight_metric : Option String
  height_metric : Option String
  bred_for : Option String
  breed_group : Option String
  reference_image_id : Option String
deriving DecidableEq

/-- One item of a `/breeds/search` response body; the code indexes
`breeds[0]["id"]` and `breeds[0]["name"]` directly. -/
structure BreedMatch where
  id : Int
  name : String
deriving DecidableEq

def DOG_API_BASE_URL : String := "https://api.thedogapi.com/v1"

/-- Python truthiness of an optional string (`if breed_id:` etc.): `None`
and the empty string are falsy. -/
def pyTruthy : Option String → Bool
  | some s => !s.isEmpty
  | none => false

/-- `{"x-api-key": API_KEY} if API_KEY else {}` / the `if API_KEY:` header
block — identical results. -/
def apiHeaders (key : Option String) : List (String × String) :=
  match key with
  | some s => if s.isEmpty then [] else [("x-api-key", s)]
  | none => []

def optStr : Option String → Json
  | some s => .str s
  | none => .null

def optInt : Option Int → Json
  | some n => .num n
  | none => .null

/-! ### get_random_dog_image -/

/-- The `params` dict of `get_random_dog_image` after limit validation
(`if limit < 1 or limit > 10: limit = 1`) and the two truthiness guards. -/
def get_random_dog_image_params (breed_id category_ids : Option String)
    (format : String) (limit : Int) : List (String × PVal) :=
  let limit := if limit < 1 ∨ limit > 10 then 1 else limit
  [("limit", PVal.i limit), ("format", PVal.s format)] ++
    (if pyTruthy breed_id then [("breed_ids", PVal.s (breed_id.getD ""))] else []) ++
    (if pyTruthy category_ids then [("category_ids", PVal.s (category_ids.getD ""))] else [])

def get_random_dog_image_request (apiKey breed_id category_ids : Option String)
    (format : String) (limit : Int) : Request :=
  { path := DOG_API_BASE_URL ++ "/images/search",
    params := get_random_dog_image_params breed_id category_ids format limit,
    headers := apiHeaders apiKey }

/-- The per-image mapping of the 200 branch of `get_random_dog_image`:
base fields, plus a `breed` object from the first breed entry when the
`breeds` key is present and the list non-empty. -/
def image_info (img : ImageItem) : Json :=
  let base := [("id", optStr img.id), ("url", optStr img.url),
               ("width", optInt img.width), ("height", optInt img.height)]
  match img.breeds with
  | some (breed :: _) =>
      Json.obj (base ++ [("breed", Json.obj
        [("name", optStr breed.name),
         ("temperament", optStr breed.temperament),
         ("life_span", optStr breed.life_span),
         ("weight", Json.str (breed.weight_metric.getD "Unknown")),
         ("height", Json.str (breed.height_metric.getD "Unknown"))])])
  | _ => Json.obj base

/-- The document `get_random_dog_image` serializes, per upstream outcome. -/
def get_random_dog_image_doc (upstream : HttpResult (List ImageItem))
    (now : String) : Json :=
  match upstream with
  | .response status data text =>
      if status = 200 then
        Json.obj [("status", .str "success"),
                  ("count", .num data.length),
                  ("images", .arr (data.map image_info))]
      else
        Json.obj [("status", .str "error"),
                  ("message", .str ("API request failed with status " ++ toString status)),
                  ("details", .str text)]
  | .timeout _ =>
      Json.obj [("status", .str "error"),
                ("message", .str "Request timeout - The Dog API took too long to respond"),
                ("suggestion", .str "Please try again in a moment")]
  | .failure msg =>
      Json.obj [("status", .str "error"),
                ("message", .str ("Unexpected error: " ++ msg)),
                ("timestamp", .str now)]

/-- `get_random_dog_image`: returned document and issued requests. -/
def get_random_dog_image (apiKey breed_id category_ids : Option String)
    (format : String) (limit : Int) (upstream : HttpResult (List ImageItem))
    (now : String) : Json × List Request :=
  (get_random_dog_image_doc upstream now,
   [get_random_dog_image_request apiKey breed_id category_ids format limit])

/-! ### get_dog_breeds -/

/-- The `params` dict of `get_dog_breeds` after parameter validation
(`if limit < 1 or limit > 100: limit = 10`, `if page < 0: page = 0`). -/
def get_dog_breeds_params (limit page : Int) (search : Option String) :
    List (String × PVal) :=
  let limit := if limit < 1 ∨ limit > 100 then 10 else limit
  let page := if page < 0 then 0 else page
  [("limit", PVal.i limit), ("page", PVal.i page)] ++
    (if pyTruthy search then [("q", PVal.s (search.getD ""))] else [])

def get_dog_breeds_request (apiKey : Option String) (limit page : Int)
    (search : Option String) : Request :=
  { path := DOG_API_BASE_URL ++ "/breeds",
    params := get_dog_breeds_params limit page search,
    headers := apiHeaders apiKey }

/-- The per-breed mapping of the 200 branch of `get_dog_breeds`. -/
def breed_info (breed : UpstreamBreed) : Json :=
  Json.obj [("id", optInt breed.id),
            ("name", optStr breed.name),
            ("temperament", optStr breed.temperament),
            ("life_span", optStr breed.life_span),
            ("alt_names", Json.str (breed.alt_names.getD "")),
            ("wikipedia_url", optStr breed.wikipedia_url),
            ("origin", Json.str (breed.origin.getD "Unknown")),
            ("weight_metric", Json.str (breed.weight_metric.getD "Unknown")),
            ("height_metric", Json.str (breed.height_metric.getD "Unknown")),
            ("bred_for", Json.str (breed.bred_for.getD "Unknown")),
            ("breed_group", Json.str (breed.breed_group.getD "Unknown")),
            ("reference_image_id", optStr breed.reference_image_id)]

/-- The document `get_dog_breeds` serializes, per upstream outcome.  The
`page` reported in the success document is the validated one. -/
def get_dog_breeds_doc (page : Int) (upstream : HttpResult (List UpstreamBreed))
    (now : String) : Json :=
  let page := if page < 0 then 0 else page
  match upstream with
  | .response status breeds text =>
      if status = 200 then
        Json.obj [("status", .str "success"),
                  ("count", .num breeds.length),
                  ("page", .num page),
                  ("breeds", .arr (breeds.map breed_info))]
      else
        Json.obj [("status", .str "error"),
                  ("message", .str ("Failed to fetch breeds with status " ++ toString status)),
                  ("details", .str text)]
  | .timeout _ =>
      Json.obj [("status", .str "error"),
                ("message", .str "Request timeout while fetching dog breeds"),
                ("suggestion", .str "Please try again with a smaller limit or check your connection")]
  | .failure msg =>
      Json.obj [("status", .str "error"),
                ("message", .str ("Error fetching dog breeds: " ++ msg)),
                ("timestamp", .str now)]

/-- `get_dog_breeds`: returned document and issued requests. -/
def get_dog_breeds (apiKey : Option String) (limit page : Int)
    (search : Option String) (upstream : HttpResult (List UpstreamBreed))
    (now : String) : Json × List Request :=
  (get_dog_breeds_doc page upstream now,
   [get_dog_breeds_request apiKey limit page search])

/-! ### search_dog_images -/

/-- First request of `search_dog_images`: the breed-name search. -/
def search_breed_request (apiKey : Option String) (breed_name : String) : Request :=
  { path := DOG_API_BASE_URL ++ "/breeds/search",
    params := [("q", PVal.s breed_name)],
    headers := apiHeaders apiKey }

/-- Second request of `search_dog_images`: the image search, with the
`min(max(1, limit), 10)` clamp of the code. -/
def search_images_request (apiKey : Option String) (breed_id : Int)
    (limit : Int) (has_breeds : Bool) : Request :=
  { path := DOG_API_BASE_URL ++ "/images/search",
    params := [("breed_ids", PVal.i breed_id),
               ("limit", PVal.i (min (max 1 limit) 10)),
               ("has_breeds", PVal.i (if has_breeds then 1 else 0))],
    headers := apiHeaders apiKey }

/-- The per-image mapping of the 200 branch of `search_dog_images`
(`breed_details` from the first breed entry when present and non-empty). -/
def search_image_info (img : ImageItem) : Json :=
  let base := [("id", optStr img.id), ("url", optStr img.url),
               ("width", optInt img.width), ("height", optInt img.height)]
  match img.breeds with
  | some (breed :: _) =>
      Json.obj (base ++ [("breed_details", Json.obj
        [("name", optStr breed.name),
         ("temperament", optStr breed.temperament),
         ("bred_for", optStr breed.bred_for),
         ("life_span", optStr breed.life_span)])])
  | _ => Json.obj base

/-- The `except Exception` document of `search_dog_images`: the only
exception handler of the operation (there is no timeout branch). -/
def search_generic_error (breed_name msg now : String) : Json :=
  Json.obj [("status", .str "error"),
            ("message", .str ("Error searching for " ++ breed_name ++ " images: " ++ msg)),
            ("timestamp", .str now)]

/-- `search_dog_images`: two-step dependent lookup.  `breedResp` is the
outcome of the `/breeds/search` call; `imgResp` is the outcome of the
`/images/search` call, consulted only when the first call returned 200
with a non-empty match list (only then is the second request issued). -/
def search_dog_images (apiKey : Option String) (breed_name : String)
    (limit : Int) (has_breeds : Bool)
    (breedResp : HttpResult (List BreedMatch))
    (imgResp : HttpResult (List ImageItem)) (now : String) :
    Json × List Request :=
  let req1 := search_breed_request apiKey breed_name
  match breedResp with
  | .response status breeds _ =>
      if status = 200 then
        match breeds with
        | [] =>
            (Json.obj [("status", .str "error"),
                       ("message", .str ("No breeds found matching \x27" ++ breed_name ++ "\x27")),
                       ("suggestion", .str "Try searching for popular breeds like \x27Golden Retriever\x27, \x27Labrador\x27, \x27Poodle\x27")],
             [req1])
        | b :: _ =>
            let req2 := search_images_request apiKey b.id limit has_breeds
            let doc :=
              match imgResp with
              | .response istatus images text =>
                  if istatus = 200 then
                    Json.obj [("status", .str "success"),
                              ("breed_searched", .str breed_name),
                              ("breed_found", .str b.name),
                              ("count", .num images.length),
                              ("images", .arr (images.map search_image_info))]
                  else
                    Json.obj [("status", .str "error"),
                              ("message", .str ("Failed to fetch images for " ++ breed_name)),
                              ("details", .str text)]
              | .timeout msg => search_generic_error breed_name msg now
              | .failure msg => search_generic_error breed_name msg now
            (doc, [req1, req2])
      else
        (Json.obj [("status", .str "error"),
                   ("message", .str ("Failed to search for breed \x27" ++ breed_name ++ "\x27")),
                   ("suggestion", .str "Check the breed name spelling or try a different breed")],
         [req1])
  | .timeout msg => (search_generic_error breed_name msg now, [req1])
  | .failure msg => (search_generic_error breed_name msg now, [req1])

/-! ### check_dog_api_status -/

/-- The unauthenticated connectivity probe:
`client.get(f"{DOG_API_BASE_URL}/images/search?limit=1")` — query string in
the URL, no params dict, no headers (so no API-key header even when a key
is configured). -/
def check_probe_request : Request :=
  { path := DOG_API_BASE_URL ++ "/images/search?limit=1",
    params := [], headers := [] }

/-- The key-validation request against the key-gated `/breeds` endpoint. -/
def check_auth_request (key : String) : Request :=
  { path := DOG_API_BASE_URL ++ "/breeds",
    params := [], headers := [("x-api-key", key)] }

def check_config_block : Json :=
  Json.obj [("timeout", .str "10 seconds"),
            ("max_images_per_request", .num 10),
            ("supported_formats", .arr [.str "json", .str "src"])]

def check_troubleshooting : Json :=
  Json.obj [("api_key_setup", .str "Set DOG_API_KEY environment variable"),
            ("get_api_key", .str "Visit https://thedogapi.com to get a free API key"),
            ("common_issues", .arr [.str "Check internet connection",
                                    .str "Verify API key is correct",
                                    .str "Ensure rate limits are not exceeded"])]

/-- The `except httpx.TimeoutException` document of `check_dog_api_status`. -/
def check_timeout_doc (now : String) : Json :=
  Json.obj [("status", .str "error"),
            ("message", .str "Connection timeout to The Dog API"),
            ("troubleshooting", Json.obj [("suggestions", .arr
              [.str "Check your internet connection",
               .str "Try again in a few moments",
               .str "Verify The Dog API is operational"])]),
            ("timestamp", .str now)]

/-- The `except Exception` document of `check_dog_api_status`. -/
def check_failure_doc (msg now : String) : Json :=
  Json.obj [("status", .str "error"),
            ("message", .str ("Failed to check API status: " ++ msg)),
            ("timestamp", .str now)]

/-- `check_dog_api_status`: probe, then (only on probe 200 with a truthy
key) the key-validation call.  Field order follows Python dict insertion
order; `result["api_status"]`/`result["connectivity"]` updates keep their
original position.  The success-path documents carry no `"status"` key. -/
def check_dog_api_status (apiKey : Option String)
    (probeResp authResp : HttpResult Unit) (now : String) :
    Json × List Request :=
  match probeResp with
  | .response status _ text =>
      if status = 200 then
        if pyTruthy apiKey then
          let key := apiKey.getD ""
          match authResp with
          | .response astatus _ _ =>
              (Json.obj [("timestamp", .str now),
                         ("api_status", .str "operational"),
                         ("api_key_configured", .bool true),
                         ("base_url", .str DOG_API_BASE_URL),
                         ("connectivity", .str "successful"),
                         ("configuration", check_config_block),
                         ("api_key_status", .str (if astatus = 200 then "valid" else "invalid")),
                         ("troubleshooting", check_troubleshooting)],
               [check_probe_request, check_auth_request key])
          | .timeout _ =>
              (check_timeout_doc now, [check_probe_request, check_auth_request key])
          | .failure msg =>
              (check_failure_doc msg now, [check_probe_request, check_auth_request key])
        else
          (Json.obj [("timestamp", .str now),
                     ("api_status", .str "operational"),
                     ("api_key_configured", .bool false),
                     ("base_url", .str DOG_API_BASE_URL),
                     ("connectivity", .str "successful"),
                     ("configuration", check_config_block),
                     ("api_key_status", .str "not_configured"),
                     ("note", .str "API key not set. Some features may be limited."),
                     ("troubleshooting", check_troubleshooting)],
           [check_probe_request])
      else
        (Json.obj [("timestamp", .str now),
                   ("api_status", .str "error"),
                   ("api_key_configured", .bool (pyTruthy apiKey)),
                   ("base_url", .str DOG_API_BASE_URL),
                   ("connectivity", .str ("failed_with_status_" ++ toString status)),
                   ("configuration", check_config_block),
                   ("error_details", .str text),
                   ("troubleshooting", check_troubleshooting)],
         [check_probe_request])
  | .timeout _ => (check_timeout_doc now, [check_probe_request])
  | .failure msg => (check_failure_doc msg now, [check_probe_request])

/-- The `"status"` field of a returned document. -/
def statusField (j : Json) : Option Json := j.getField "status"

/-! ## Theorems about the claims -/

/-- C1 (counterexample): the claim asserts every operation's returned
document contains a status field distinguishing "success" from "error";
but the document `check_dog_api_status` returns on a successful probe
(HTTP 200, no key configured) has no `"status"` field at all. -/
theorem check_success_doc_has_no_status_field :
    statusField (check_dog_api_status none (HttpResult.response 200 () "")
      (HttpResult.timeout "") "2024-01-01T00:00:00").fst = none := rfl

/-- C1 (amended): every operation returns exactly one document for every
upstream outcome (totality of these functions models that no exception
escapes the boundary).  The documents of `get_random_dog_image`,
`get_dog_breeds` and `search_dog_images` always carry a `"status"` field
equal to "success" or "error"; the document of `check_dog_api_status`
either omits the `"status"` field (HTTP-response paths, which carry
`api_status` instead) or sets it to "error" (timeout/exception paths) —
it is never "success". -/
theorem envelope_status_field_amended
    (apiKey breed_id category_ids search : Option String) (format : String)
    (limit limitB pageB limitS : Int) (breed_name : String) (has_breeds : Bool)
    (u1 : HttpResult (List ImageItem)) (u2 : HttpResult (List UpstreamBreed))
    (b : HttpResult (List BreedMatch)) (i : HttpResult (List ImageItem))
    (p a : HttpResult Unit) (now : String) :
    (statusField (get_random_dog_image apiKey breed_id category_ids format limit u1 now).fst
        = some (.str "success")
      ∨ statusField (get_random_dog_image apiKey breed_id category_ids format limit u1 now).fst
        = some (.str "error"))
    ∧ (statusField (get_dog_breeds apiKey limitB pageB search u2 now).fst
        = some (.str "success")
      ∨ statusField (get_dog_breeds apiKey limitB pageB search u2 now).fst
        = some (.str "error"))
    ∧ (statusField (search_dog_images apiKey breed_name limitS has_breeds b i now).fst
        = some (.str "success")
      ∨ statusField (search_dog_images apiKey breed_name limitS has_breeds b i now).fst
        = some (.str "error"))
    ∧ (statusField (check_dog_api_status apiKey p a now).fst = none
      ∨ statusField (check_dog_api_status apiKey p a now).fst = some (.str "error")) := by
  refine ⟨?_, ?_, ?_, ?_⟩
  · cases u1 with
    | response s d t =>
        by_cases hs : s = 200
        · subst hs; left; rfl
        · right
          simp [get_random_dog_image, get_random_dog_image_doc, hs, statusField, Json.getField]
    | timeout m => right; rfl
    | failure m => right; rfl
  · cases u2 with
    | response s d t =>
        by_cases hs : s = 200
        · subst hs; left; rfl
        · right
          simp [get_dog_breeds, get_dog_breeds_doc, hs, statusField, Json.getField]
    | timeout m => right; rfl
    | failure m => right; rfl
  · cases b with
    | response s bl t =>
        by_cases hs : s = 200
        · subst hs
          cases bl with
          | nil => right; rfl
          | cons x xs =>
              cases i with
              | response is im it =>
                  by_cases his : is = 200
                  · subst his; left; rfl
                  · right
                    simp [search_dog_images, his, statusField, Json.getField]
              | timeout m => right; rfl
              | failure m => right; rfl
        · right
          simp [search_dog_images, hs, statusField, Json.getField]
    | timeout m => right; rfl
    | failure m => right; rfl
  · cases p with
    | response s body t =>
        by_cases hs : s = 200
        · subst hs
          cases hk : pyTruthy apiKey with
          | true =>
              cases a with
              | response as abody at2 =>
                  left; simp [check_dog_api_status, hk, statusField, Json.getField]
              | timeout m =>
                  right
                  simp [check_dog_api_status, hk, statusField, Json.getField, check_timeout_doc]
              | failure m =>
                  right
                  simp [check_dog_api_status, hk, statusField, Json.getField, check_failure_doc]
          | false => left; simp [check_dog_api_status, hk, statusField, Json.getField]
        · left; simp [check_dog_api_status, hs, statusField, Json.getField]
    | timeout m => right; rfl
    | failure m => right; rfl

/-- C2: on an upstream HTTP-200 image-search response with N items, the
success envelope holds exactly the N mapped entries in upstream order
(`data.map image_info`); an entry carries a `breed` object exactly when
the item's breeds list is present and non-empty, the object is built from
the first breed entry, and metric weight/height default to "Unknown" when
absent. -/
theorem get_random_dog_image_success_mapping
    (apiKey breed_id category_ids : Option String) (format : String) (limit : Int)
    (data : List ImageItem) (text now : String) :
    (get_random_dog_image apiKey breed_id category_ids format limit
        (.response 200 data text) now).fst
      = Json.obj [("status", .str "success"), ("count", .num data.length),
                  ("images", .arr (data.map image_info))]
    ∧ (data.map image_info).length = data.length
    ∧ (∀ img : ImageItem, ∀ b : BreedItem, ∀ bs : List BreedItem,
        (image_info { img with breeds := some (b :: bs) }).getField "breed"
          = some (Json.obj
              [("name", optStr b.name),
               ("temperament", optStr b.temperament),
               ("life_span", optStr b.life_span),
               ("weight", Json.str (b.weight_metric.getD "Unknown")),
               ("height", Json.str (b.height_metric.getD "Unknown"))]))
    ∧ (∀ img : ImageItem, (image_info { img with breeds := none }).getField "breed" = none)
    ∧ (∀ img : ImageItem, (image_info { img with breeds := some [] }).getField "breed" = none)
    ∧ (∀ img : ImageItem, ∀ b : BreedItem, ∀ bs : List BreedItem,
        (image_info { img with breeds := some ({ b with weight_metric := none, height_metric := none } :: bs) }).getField "breed"
          = some (Json.obj
              [("name", optStr b.name),
               ("temperament", optStr b.temperament),
               ("life_span", optStr b.life_span),
               ("weight", Json.str "Unknown"),
               ("height", Json.str "Unknown")])) := by
  refine ⟨rfl, by simp, fun img b bs => rfl, fun img => rfl, fun img => rfl,
    fun img b bs => rfl⟩

/-- C3: `get_random_dog_image` issues exactly its one request; a limit
outside [1,10] is sent as exactly 1 (reset to default), a limit inside
[1,10] is sent unchanged. -/
theorem get_random_dog_image_limit_policy
    (apiKey breed_id category_ids : Option String) (format : String) (limit : Int)
    (upstream : HttpResult (List ImageItem)) (now : String) :
    (get_random_dog_image apiKey breed_id category_ids format limit upstream now).snd
      = [get_random_dog_image_request apiKey breed_id category_ids format limit]
    ∧ ((limit < 1 ∨ 10 < limit) →
        List.lookup "limit"
            (get_random_dog_image_request apiKey breed_id category_ids format limit).params
          = some (PVal.i 1))
    ∧ (1 ≤ limit → limit ≤ 10 →
        List.lookup "limit"
            (get_random_dog_image_request apiKey breed_id category_ids format limit).params
          = some (PVal.i limit)) := by
  have base : List.lookup "limit"
      (get_random_dog_image_request apiKey breed_id category_ids format limit).params
      = some (PVal.i (if limit < 1 ∨ limit > 10 then 1 else limit)) := rfl
  refine ⟨rfl, fun h => ?_, fun h1 h2 => ?_⟩
  · rw [base, if_pos h]
  · rw [base, if_neg (by omega : ¬(limit < 1 ∨ limit > 10))]

/-- C3 witness: the policy at the concrete out-of-range limit 42 and the
in-range limit 7. -/
theorem get_random_dog_image_limit_policy_witness :
    List.lookup "limit" (get_random_dog_image_request none none none "json" 42).params
      = some (PVal.i 1)
    ∧ List.lookup "limit" (get_random_dog_image_request none none none "json" 7).params
      = some (PVal.i 7) :=
  ⟨(get_random_dog_image_limit_policy none none none "json" 42
      (HttpResult.timeout "") "").2.1 (by decide),
   (get_random_dog_image_limit_policy none none none "json" 7
      (HttpResult.timeout "") "").2.2 (by decide) (by decide)⟩

/-- C4: when the breed-name search returns HTTP 200 with a first match,
`search_dog_images` issues the image-search request with a limit equal to
max(1, min(input, 10)) — true min/max clamping (the code's
`min(max(1, limit), 10)` is the same function). -/
theorem search_dog_images_limit_clamp
    (apiKey : Option String) (breed_name : String) (limit : Int) (has_breeds : Bool)
    (b : BreedMatch) (bs : List BreedMatch) (t : String)
    (imgResp : HttpResult (List ImageItem)) (now : String) :
    (search_dog_images apiKey breed_name limit has_breeds
        (.response 200 (b :: bs) t) imgResp now).snd
      = [search_breed_request apiKey breed_name,
         search_images_request apiKey b.id limit has_breeds]
    ∧ List.lookup "limit" (search_images_request apiKey b.id limit has_breeds).params
      = some (PVal.i (max 1 (min limit 10))) := by
  constructor
  · rfl
  · have base : List.lookup "limit" (search_images_request apiKey b.id limit has_breeds).params
        = some (PVal.i (min (max 1 limit) 10)) := rfl
    have hmm : min (max 1 limit) 10 = max 1 (min limit 10) := by
      simp only [min_def, max_def]
      split_ifs <;> omega
    rw [base, hmm]

/-- C5: `get_dog_breeds` issues exactly its one request; a limit outside
[1,100] is sent as exactly 10, a negative page as exactly 0, and in-range
values are sent unchanged. -/
theorem get_dog_breeds_param_policy
    (apiKey search : Option String) (limit page : Int)
    (upstream : HttpResult (List UpstreamBreed)) (now : String) :
    (get_dog_breeds apiKey limit page search upstream now).snd
      = [get_dog_breeds_request apiKey limit page search]
    ∧ ((limit < 1 ∨ 100 < limit) →
        List.lookup "limit" (get_dog_breeds_request apiKey limit page search).params
          = some (PVal.i 10))
    ∧ (1 ≤ limit → limit ≤ 100 →
        List.lookup "limit" (get_dog_breeds_request apiKey limit page search).params
          = some (PVal.i limit))
    ∧ (page < 0 →
        List.lookup "page" (get_dog_breeds_request apiKey limit page search).params
          = some (PVal.i 0))
    ∧ (0 ≤ page →
        List.lookup "page" (get_dog_breeds_request apiKey limit page search).params
          = some (PVal.i page)) := by
  have baseL : List.lookup "limit" (get_dog_breeds_request apiKey limit page search).params
      = some (PVal.i (if limit < 1 ∨ limit > 100 then 10 else limit)) := rfl
  have baseP : List.lookup "page" (get_dog_breeds_request apiKey limit page search).params
      = some (PVal.i (if page < 0 then 0 else page)) := rfl
  refine ⟨rfl, fun h => ?_, fun h1 h2 => ?_, fun h => ?_, fun h => ?_⟩
  · rw [baseL, if_pos h]
  · rw [baseL, if_neg (by omega : ¬(limit < 1 ∨ limit > 100))]
  · rw [baseP, if_pos h]
  · rw [baseP, if_neg (by omega : ¬page < 0)]

/-- C5 witness: the policy at the concrete out-of-range limit 1000 and
page -3, and at the in-range limit 50 and page 2. -/
theorem get_dog_breeds_param_policy_witness :
    List.lookup "limit" (get_dog_breeds_request none 1000 (-3) none).params
      = some (PVal.i 10)
    ∧ List.lookup "page" (get_dog_breeds_request none 1000 (-3) none).params
      = some (PVal.i 0)
    ∧ List.lookup "limit" (get_dog_breeds_request none 50 2 none).params
      = some (PVal.i 50)
    ∧ List.lookup "page" (get_dog_breeds_request none 50 2 none).params
      = some (PVal.i 2) :=
  ⟨(get_dog_breeds_param_policy none none 1000 (-3)
      (HttpResult.timeout "") "").2.1 (by decide),
   (get_dog_breeds_param_policy none none 1000 (-3)
      (HttpResult.timeout "") "").2.2.2.1 (by decide),
   (get_dog_breeds_param_policy none none 50 2
      (HttpResult.timeout "") "").2.2.1 (by decide) (by decide),
   (get_dog_breeds_param_policy none none 50 2
      (HttpResult.timeout "") "").2.2.2.2 (by decide)⟩

/-- C6: when the breed-name search returns HTTP 200 with zero matches,
`search_dog_images` returns the error envelope whose message contains the
searched name and whose suggestion lists example breed names, and the only
request issued is the breed-search one (path `/breeds/search`, not the
image-search endpoint). -/
theorem search_dog_images_no_match
    (apiKey : Option String) (breed_name : String) (limit : Int) (has_breeds : Bool)
    (t : String) (imgResp : HttpResult (List ImageItem)) (now : String) :
    search_dog_images apiKey breed_name limit has_breeds
        (.response 200 [] t) imgResp now
      = (Json.obj [("status", .str "error"),
                   ("message", .str ("No breeds found matching \x27" ++ breed_name ++ "\x27")),
                   ("suggestion", .str "Try searching for popular breeds like \x27Golden Retriever\x27, \x27Labrador\x27, \x27Poodle\x27")],
         [search_breed_request apiKey breed_name])
    ∧ (search_breed_request apiKey breed_name).path = DOG_API_BASE_URL ++ "/breeds/search" :=
  ⟨rfl, rfl⟩

/-- C7: on a timeout, `get_random_dog_image` returns exactly the fixed
timeout envelope (status "error", fixed suggestion), with no `details`
field (no upstream body) and no `timestamp` field (the generic branch is
not reached), and its `message` differs from the message of the document
produced for every HTTP-response outcome, in particular every non-200
status. -/
theorem get_random_dog_image_timeout_branch
    (apiKey breed_id category_ids : Option String) (format : String) (limit : Int)
    (m now : String) :
    (get_random_dog_image apiKey breed_id category_ids format limit
        (.timeout m) now).fst
      = Json.obj [("status", .str "error"),
                  ("message", .str "Request timeout - The Dog API took too long to respond"),
                  ("suggestion", .str "Please try again in a moment")]
    ∧ (get_random_dog_image apiKey breed_id category_ids format limit
        (.timeout m) now).fst.getField "details" = none
    ∧ (get_random_dog_image apiKey breed_id category_ids format limit
        (.timeout m) now).fst.getField "timestamp" = none
    ∧ (∀ (s : Nat) (d : List ImageItem) (t2 : String),
        (get_random_dog_image apiKey breed_id category_ids format limit
            (.timeout m) now).fst.getField "message"
          ≠ (get_random_dog_image apiKey breed_id category_ids format limit
            (.response s d t2) now).fst.getField "message") := by
  refine ⟨rfl, rfl, rfl, fun s d t2 h => ?_⟩
  by_cases hs : s = 200
  · subst hs
    exact Option.noConfusion h
  · simp only [get_random_dog_image, get_random_dog_image_doc, hs, if_false,
      Json.getField, List.lookup, ite_false] at h
    simp only [show ("message" == "status") = false from rfl,
      show ("message" == "message") = true from rfl] at h
    have h3 : "Request timeout - The Dog API took too long to respond"
        = "API request failed with status " ++ toString s := by
      injection h with h4
      injection h4
    have h2 : (some 'R' : Option Char) = some 'A' :=
      congrArg (fun u => u.data.head?) h3
    exact absurd h2 (by decide)

/-- C7 witness: the timeout message differs from the non-200 message at
the concrete status 500. -/
theorem get_random_dog_image_timeout_branch_witness :
    (get_random_dog_image none none none "json" 1
        (HttpResult.timeout "t") "now").fst.getField "message"
      ≠ (get_random_dog_image none none none "json" 1
        (HttpResult.response 500 [] "body") "now").fst.getField "message" :=
  (get_random_dog_image_timeout_branch none none none "json" 1 "t" "now").2.2.2 500 [] "body"

/-- C8: every exception during `search_dog_images`, including a timeout of
either upstream call, yields the one generic error shape with the
stringified failure in the message and the generated timestamp; there is
no distinct timeout branch. -/
theorem search_dog_images_generic_exception
    (apiKey : Option String) (breed_name : String) (limit : Int) (has_breeds : Bool)
    (m : String) (imgResp : HttpResult (List ImageItem))
    (b : BreedMatch) (bs : List BreedMatch) (t now : String) :
    (search_dog_images apiKey breed_name limit has_breeds
        (.timeout m) imgResp now).fst = search_generic_error breed_name m now
    ∧ (search_dog_images apiKey breed_name limit has_breeds
        (.failure m) imgResp now).fst = search_generic_error breed_name m now
    ∧ (search_dog_images apiKey breed_name limit has_breeds
        (.response 200 (b :: bs) t) (.timeout m) now).fst
      = search_generic_error breed_name m now
    ∧ (search_dog_images apiKey breed_name limit has_breeds
        (.response 200 (b :: bs) t) (.failure m) now).fst
      = search_generic_error breed_name m now
    ∧ search_generic_error breed_name m now
      = Json.obj [("status", .str "error"),
                  ("message", .str ("Error searching for " ++ breed_name ++ " images: " ++ m)),
                  ("timestamp", .str now)]
    ∧ (search_generic_error breed_name m now).getField "timestamp" = some (.str now) :=
  ⟨rfl, rfl, rfl, rfl, rfl, rfl⟩

/-- C9 (counterexample): the claim asserts every no-key call reports key
status "not_configured"; but when the connectivity probe fails (here HTTP
500) the returned document has no `api_key_status` field at all. -/
theorem check_probe_failure_no_key_status :
    (check_dog_api_status none (HttpResult.response 500 () "oops")
        (HttpResult.timeout "") "2024-01-01T00:00:00").fst.getField "api_key_status"
      = none := rfl

/-- C9 (amended): with no API key configured, `check_dog_api_status`
reports key status "not_configured" when the probe returns HTTP 200; for
every probe outcome it issues only the connectivity probe (no
key-validation request), and the probe carries no headers at all, hence
no API-key header. -/
theorem check_no_key_not_configured
    (a p : HttpResult Unit) (t now : String) :
    (check_dog_api_status none (.response 200 () t) a now).fst.getField "api_key_status"
      = some (.str "not_configured")
    ∧ (check_dog_api_status none p a now).snd = [check_probe_request]
    ∧ check_probe_request.headers = [] := by
  refine ⟨rfl, ?_, rfl⟩
  cases p with
  | response s body t2 =>
      by_cases hs : s = 200
      · subst hs; rfl
      · simp [check_dog_api_status, hs]
  | timeout m => rfl
  | failure m => rfl

/-- C10: passing the empty string for `breed_id` or `category_ids` in
`get_random_dog_image`, or for `search` in `get_dog_breeds`, is
indistinguishable from passing nothing: the whole operation (document and
issued requests) is identical. -/
theorem empty_string_params_omitted
    (apiKey category_ids breed_id : Option String) (format : String)
    (limit limitB pageB : Int)
    (u1 : HttpResult (List ImageItem)) (u2 : HttpResult (List UpstreamBreed))
    (now : String) :
    get_random_dog_image apiKey (some "") category_ids format limit u1 now
      = get_random_dog_image apiKey none category_ids format limit u1 now
    ∧ get_random_dog_image apiKey breed_id (some "") format limit u1 now
      = get_random_dog_image apiKey breed_id none format limit u1 now
    ∧ get_dog_breeds apiKey limitB pageB (some "") u2 now
      = get_dog_breeds apiKey limitB pageB none u2 now :=
  ⟨rfl, rfl, rfl⟩

end DogMcp
